import Mathlib

/-!
Verification development for the NVIDIA GPU Setup Tool (src/nlinux.c).

The file shallowly embeds the core of the application: the probe
(detection) thread, the installation thread with its gates, step
sequence, progress accounting and cleanup paths, the console-log ring
with its retained-line cap, and the two button handlers that guard
against concurrent runs.  External commands are modelled by oracles:
an exit status (and, where the C code captures it, an optional output
string — `none` models the output buffer never being written because
popen failed).  Machine doubles used for progress become exact
rationals; `gint` becomes `Int`.
-/

namespace NvidiaSetup

set_option maxRecDepth 4000

/-! ## String helpers mirroring glib (g_strchomp, g_strchug, g_ascii_strtoll, strstr) -/

/-- ASCII whitespace as used by `g_ascii_isspace`. -/
def g_ascii_isspace (ch : Char) : Bool :=
  ch = ' ' || ch = '\t' || ch = '\n' || ch = '\x0b' || ch = '\x0c' || ch = '\r'

/-- Model of `g_strchomp`: removes trailing ASCII whitespace. -/
def g_strchomp (s : String) : String :=
  ⟨(s.data.reverse.dropWhile g_ascii_isspace).reverse⟩

/-- Model of `g_strchug`: removes leading ASCII whitespace. -/
def g_strchug (s : String) : String :=
  ⟨s.data.dropWhile g_ascii_isspace⟩

/-- Accumulate decimal digits, stopping at the first non-digit. -/
def parse_decimal_digits : List Char → Int → Int
  | [], acc => acc
  | ch :: rest, acc =>
    if ch.isDigit then parse_decimal_digits rest (acc * 10 + (ch.toNat - '0'.toNat : Nat))
    else acc

/-- Model of `g_ascii_strtoll(s, NULL, 10)`: skip leading whitespace, optional
sign, then decimal digits. -/
def g_ascii_strtoll (s : String) : Int :=
  let t := s.data.dropWhile g_ascii_isspace
  match t with
  | '-' :: rest => - parse_decimal_digits rest 0
  | '+' :: rest => parse_decimal_digits rest 0
  | _ => parse_decimal_digits t 0

/-- Does `pat` start the list `l`? -/
def list_starts_with : List Char → List Char → Bool
  | [], _ => true
  | _ :: _, [] => false
  | p :: ps, h :: hs => p = h && list_starts_with ps hs

/-- Does `pat` occur inside `hay` (model of C `strstr` being non-NULL)? -/
def list_has_sub (pat : List Char) : List Char → Bool
  | [] => list_starts_with pat []
  | h :: hs => list_starts_with pat (h :: hs) || list_has_sub pat hs

/-- Substring test on strings, model of `strstr(hay, pat) != NULL`. -/
def strstr_has (hay pat : String) : Bool :=
  list_has_sub pat.data hay.data

/-! ## Status types and external command results -/

/-- The `StatusType` enum of the application. -/
inductive StatusType
  | unknown
  | success
  | warning
  | error
  | info
deriving DecidableEq

/-- Result of one `run_command` invocation: the value `run_command` returns
(from `pclose`, or `-1` when `popen` fails) together with the captured
output.  `output = none` models the caller's output pointer never being
written, which in the C code happens exactly when `popen` fails. -/
structure CmdResult where
  status : Int
  output : Option String
deriving DecidableEq

/-- The recurring C condition `result == 0 && output != NULL && strlen(output) > 0`. -/
def cmd_captured_nonempty (r : CmdResult) : Bool :=
  r.status == 0 && (match r.output with | some o => o != "" | none => false)

/-! ## Command strings from the source -/

def lsb_cmd : String := "lsb_release -cs 2>/dev/null"

def lspci_cmd : String := "lspci | grep -i nvidia"

def smi_cmd : String :=
  "nvidia-smi --query-gpu=driver_version --format=csv,noheader,nounits 2>/dev/null"

def nvcc_cmd : String :=
  "nvcc --version 2>/dev/null | grep \x27release\x27 | awk \x27\x7bprint $6\x7d\x27 | cut -c2-"

def wsl_check_cmd : String := "cat /proc/version 2>/dev/null | grep -i microsoft"

def ping_cmd : String := "ping -c 1 8.8.8.8 >/dev/null 2>&1"

def df_cmd : String := "df / | tail -1 | awk \x27\x7bprint $4\x7d\x27"

def mokutil_cmd : String := "mokutil --sb-state 2>/dev/null"

def update_cmd : String := "sudo apt-get update"

def prereq_cmd : String :=
  "sudo apt-get install -y software-properties-common apt-transport-https ca-certificates curl wget gnupg lsb-release build-essential dkms"

/-- `g_strdup_printf` with a NULL `%s` argument prints `(null)` under glib. -/
def codename_str (cn : Option String) : String := cn.getD "(null)"

def repo_cmd (cn : String) : String :=
  "wget https://developer.download.nvidia.com/compute/cuda/repos/" ++ cn ++
    "/x86_64/cuda-keyring_1.1-1_all.deb"

def dpkg_cmd : String := "sudo dpkg -i cuda-keyring_1.1-1_all.deb"

def driver_cmd : String := "sudo apt-get install -y cuda-drivers"

def cuda_toolkit_cmd : String := "sudo apt-get install -y cuda-toolkit-12-6"

def env_cmd : String :=
  "echo \x27export PATH=/usr/local/cuda/bin$\x7bPATH:+:$PATH\x7d\x27 | sudo tee /etc/profile.d/cuda.sh && echo \x27export LD_LIBRARY_PATH=/usr/local/cuda/lib64$\x7bLD_LIBRARY_PATH:+:$LD_LIBRARY_PATH\x7d\x27 | sudo tee -a /etc/profile.d/cuda.sh"

def rm_keyring_cmd : String := "rm -f cuda-keyring_1.1-1_all.deb"

def autoremove_cmd : String := "sudo apt-get autoremove -y"

def sudo_verify_cmd : String := "sudo -S echo \x27test\x27 >/dev/null 2>&1"

/-! ## Console log model (`log_message`)

The console is a GtkTextBuffer; every inserted message ends in a newline,
so the buffer's `gtk_text_buffer_get_line_count` equals the number of
inserted messages plus one (the empty line after the final newline).  We
model the buffer as the list of completed message lines; the GTK line
count of buffer `buf` is therefore `buf.length + 1`. -/

def MAX_LOG_LINES : Nat := 1000

/-- The status icon chosen by the `switch` in `log_message`. -/
def status_icon : StatusType → String
  | StatusType.success => "[OK]"
  | StatusType.warning => "[WARN]"
  | StatusType.error => "[ERROR]"
  | StatusType.info => "[INFO]"
  | StatusType.unknown => "[*]"

/-- The formatted line `"[%s] %s %s"` (timestamp, icon, message), without the
trailing newline, which is the line separator in the buffer model. -/
def formatted_log_line (timestamp : String) (t : StatusType) (msg : String) : String :=
  "[" ++ timestamp ++ "] " ++ status_icon t ++ " " ++ msg

/-- Insertion with trimming, following `log_message`: if the GTK line count
(`buf.length + 1`) has reached `MAX_LOG_LINES`, the first
`line_count - MAX_LOG_LINES + 1` lines are deleted before the new line is
appended. -/
def log_insert (buf : List String) (line : String) : List String :=
  let line_count := buf.length + 1
  if MAX_LOG_LINES ≤ line_count then
    buf.drop (line_count - MAX_LOG_LINES + 1) ++ [line]
  else
    buf ++ [line]

/-- One `log_message` call: format the line, then insert with trimming. -/
def log_message_model (buf : List String) (timestamp : String) (t : StatusType)
    (msg : String) : List String :=
  log_insert buf (formatted_log_line timestamp t msg)

/-! ## SystemInfo and the detection (probe) thread -/

/-- The `SystemInfo` struct.  `distro_codename = none` models the NULL
pointer it is initialised to. -/
structure SystemInfo where
  gpu_detected : Bool
  gpu_info : String
  driver_installed : Bool
  driver_info : String
  cuda_installed : Bool
  cuda_info : String
  distro_codename : Option String
deriving DecidableEq

/-- `init_app_data`'s initialisation of `system_info`. -/
def init_system_info : SystemInfo :=
  { gpu_detected := false
    gpu_info := "Unknown"
    driver_installed := false
    driver_info := "Unknown"
    cuda_installed := false
    cuda_info := "Unknown"
    distro_codename := none }

/-- One log event (a `log_message` call's severity and text). -/
structure LogEvent where
  sev : StatusType
  msg : String
deriving DecidableEq

/-- `detect_nvidia_gpu`: on exit 0 with non-empty captured output, mark the
GPU detected with a trimmed description; otherwise the sentinel text. -/
def detect_nvidia_gpu (r : CmdResult) (info : SystemInfo) : SystemInfo :=
  if cmd_captured_nonempty r then
    { info with
        gpu_detected := true
        gpu_info := "Detected: " ++ g_strchomp (g_strchug (r.output.getD "")) }
  else
    { info with gpu_detected := false, gpu_info := "No NVIDIA GPU detected" }

/-- `detect_nvidia_driver`. -/
def detect_nvidia_driver (r : CmdResult) (info : SystemInfo) : SystemInfo :=
  if cmd_captured_nonempty r then
    { info with
        driver_installed := true
        driver_info := "Installed: Version " ++ g_strchomp (g_strchug (r.output.getD "")) }
  else
    { info with driver_installed := false, driver_info := "Not installed" }

/-- `detect_cuda`. -/
def detect_cuda (r : CmdResult) (info : SystemInfo) : SystemInfo :=
  if cmd_captured_nonempty r then
    { info with
        cuda_installed := true
        cuda_info := "Installed: CUDA " ++ g_strchomp (g_strchug (r.output.getD "")) }
  else
    { info with cuda_installed := false, cuda_info := "Not installed" }

/-- Oracle for one probe run.  `lsb_output = some out` means the codename
command's popen succeeded and captured `out` (possibly empty);
`none` means popen failed, leaving the caller's pointer untouched. -/
structure ProbeEnv where
  lsb_output : Option String
  gpu : CmdResult
  driver : CmdResult
  cuda : CmdResult
deriving DecidableEq

/-- The `detection_thread`.  Note the C code tests the codename pointer for
NULL, not for emptiness: a successfully captured empty output is kept and
logged with Info severity, and the `"unknown"` fallback fires only when the
pointer was never written (popen failure on a first probe, where the field
is still NULL from `init_app_data`). -/
def detection_thread_model (env : ProbeEnv) (info0 : SystemInfo) :
    SystemInfo × List LogEvent :=
  let cn_now : Option String :=
    match env.lsb_output with
    | some out => some out
    | none => info0.distro_codename
  let cn_ev : Option String × List LogEvent :=
    match cn_now with
    | some out =>
        (some (g_strchomp out),
         [⟨StatusType.info, "Distribution codename: " ++ g_strchomp out⟩])
    | none =>
        (some "unknown", [⟨StatusType.warning, "Unable to detect distribution codename"⟩])
  let info1 := { info0 with distro_codename := cn_ev.1 }
  let info2 := detect_nvidia_gpu env.gpu info1
  let info3 := detect_nvidia_driver env.driver info2
  let info4 := detect_cuda env.cuda info3
  (info4,
   [⟨StatusType.info, "Detecting system components..."⟩,
    ⟨StatusType.info, "Detecting Linux distribution..."⟩] ++
   cn_ev.2 ++
   [⟨StatusType.info, "Checking for NVIDIA GPU..."⟩,
    ⟨StatusType.info, "Checking driver status..."⟩,
    ⟨StatusType.info, "Checking CUDA status..."⟩,
    ⟨StatusType.info, "System detection completed."⟩])

/-! ## Installation model -/

/-- One external command of an install run.  `bumps` records whether the C
code advances the progress variable and posts a phase message before this
command (`dpkg -i` runs inside the repository phase and does not). -/
structure InstallStep where
  message : String
  log_text : String
  command : String
  bumps : Bool
deriving DecidableEq

/-- Line 570: `gint total_steps = 1 + (install_driver ? 4 : 0) + (install_cuda ? 4 : 0);`. -/
def total_steps (d c : Bool) : Int :=
  1 + (if d then 4 else 0) + (if c then 4 else 0)

/-- Line 571: `gdouble progress_increment = 100.0 / total_steps;`. -/
def progress_increment (d c : Bool) : ℚ :=
  100 / (total_steps d c : ℚ)

/-- The ordered command sequence of `installation_thread` for a request,
with each command's phase message and log text. -/
def install_steps (d c : Bool) (cn : Option String) : List InstallStep :=
  [⟨"Updating package lists...", "Updating package repositories...", update_cmd, true⟩,
   ⟨"Installing prerequisites...", "Installing required packages...", prereq_cmd, true⟩] ++
  (if d then
    [⟨"Adding NVIDIA repository...", "Adding NVIDIA repository...",
      repo_cmd (codename_str cn), true⟩,
     ⟨"Adding NVIDIA repository...", "", dpkg_cmd, false⟩,
     ⟨"Updating package lists...", "Updating package lists with NVIDIA repository...",
      update_cmd, true⟩,
     ⟨"Installing NVIDIA driver...", "Installing NVIDIA proprietary driver...",
      driver_cmd, true⟩]
   else []) ++
  (if c then
    [⟨"Verifying CUDA repository...", "Ensuring NVIDIA CUDA repository...",
      update_cmd, true⟩,
     ⟨"Installing CUDA toolkit...", "Installing CUDA toolkit...", cuda_toolkit_cmd, true⟩,
     ⟨"Setting up environment variables...", "Configuring CUDA environment...",
      env_cmd, true⟩]
   else [])

/-- The terminal `g_idle_add` posts of an install run. -/
inductive TermEvent
  | enableInstallButton
  | enableDetectButton
  | resetInstallLabel
  | completionDialog
  | errorDialog
deriving DecidableEq

/-- One observable action of the installation thread, in program order. -/
inductive Action
  | cmd (c : String)
  | post (progress : ℚ) (message : Option String) (log : String) (sev : StatusType)
  | logDirect (sev : StatusType) (msg : String)
  | setRunning (b : Bool)
  | terminal (t : TermEvent)
deriving DecidableEq

/-- Terminal result of an install run, as surfaced through the posted
dialogs and the error log events (`Failed` carries the phase description
last posted for the failing command and the status `run_command` returned). -/
inductive RunOutcome
  | succeeded
  | abortedIncompatible
  | abortedNoConnectivity
  | failed (description : String) (exitStatus : Int)
deriving DecidableEq

/-- Trace and outcome of one install run. -/
structure InstallRun where
  trace : List Action
  outcome : RunOutcome

/-- `is_wsl_system`: the kernel-version marker command succeeded with
non-empty output. -/
def is_wsl_system (r : CmdResult) : Bool := cmd_captured_nonempty r

/-- Oracle and request for one install run.  `step_status i` is the status
`run_command` returns for the i-th `run_command_with_progress` invocation;
`rm_status` and `autoremove_status` are the statuses of the two cleanup
commands (the C code discards both). -/
structure InstallInput where
  install_driver : Bool
  install_cuda : Bool
  distro_codename : Option String
  wsl : CmdResult
  is_root : Bool
  df : CmdResult
  mokutil : CmdResult
  ping_status : Int
  step_status : Nat → Int
  rm_status : Int
  autoremove_status : Int

/-- Root warning of `check_system_compatibility`. -/
def root_warn (b : Bool) : List Action :=
  if b then
    [Action.logDirect StatusType.warning
      "WARNING: Running as root. This is not recommended for security reasons."]
  else []

/-- Disk-space warning of `check_system_compatibility`. -/
def df_warn (r : CmdResult) : List Action :=
  match r with
  | ⟨0, some out⟩ =>
    if g_ascii_strtoll out < 2000000 then
      [Action.logDirect StatusType.warning
        "WARNING: Low disk space detected. Installation may fail."]
    else []
  | _ => []

/-- Secure-Boot warning of `check_system_compatibility`. -/
def mok_warn (r : CmdResult) : List Action :=
  match r with
  | ⟨0, some out⟩ =>
    if strstr_has out "enabled" then
      [Action.logDirect StatusType.warning
        "WARNING: Secure Boot is enabled. Driver installation may require additional steps."]
    else []
  | _ => []

/-- Distro-compatibility warnings of `check_system_compatibility`. -/
def distro_warn (cn : Option String) : List Action :=
  match cn with
  | some s =>
    if s = "bullseye" then
      [Action.logDirect StatusType.warning "WARNING: Debian 11 is EOL. Upgrade recommended."]
    else if s ≠ "bookworm" ∧ s ≠ "jammy" ∧ s ≠ "noble" then
      [Action.logDirect StatusType.warning "WARNING: Unsupported distro. Installation may fail."]
    else []
  | none => []

/-- The advisory part of `check_system_compatibility` on the non-WSL path:
root warning, the `df` command and its warning, the `mokutil` command and
its warning, then the distro warnings. -/
def compat_warnings (inp : InstallInput) : List Action :=
  root_warn inp.is_root ++
  [Action.cmd df_cmd] ++ df_warn inp.df ++
  [Action.cmd mokutil_cmd] ++ mok_warn inp.mokutil ++
  distro_warn inp.distro_codename

/-- `run_command_with_progress` applied to each step in order, threading
the step index into the status oracle and the cumulative progress.
Returns the emitted actions and, when some command returned non-zero, the
first failing step with its status (later steps are not reached, mirroring
the `goto cleanup_install`). -/
def exec_steps (st : Nat → Int) (inc : ℚ) :
    List InstallStep → Nat → ℚ → List Action × Option (InstallStep × Int)
  | [], _, _ => ([], none)
  | s :: rest, i, p =>
    let p2 := if s.bumps then p + inc else p
    let phase : List Action :=
      if s.bumps then [Action.post p2 (some s.message) s.log_text StatusType.info] else []
    let pre : List Action :=
      phase ++ [Action.post 0 none ("Running: " ++ s.command) StatusType.info,
                Action.cmd s.command]
    if st i = 0 then
      let r := exec_steps st inc rest (i + 1) p2
      (pre ++ [Action.post inc none "Command completed successfully" StatusType.success] ++ r.1,
       r.2)
    else
      (pre ++ [Action.post 0 none ("Command failed with exit code " ++ toString (st i))
                StatusType.error],
       some (s, st i))

/-- The `installation_thread`, from the compatibility gate to the terminal
posts, as a trace of actions plus the run outcome. -/
def installation_thread_model (inp : InstallInput) : InstallRun :=
  let d := inp.install_driver
  let c := inp.install_cuda
  let inc := progress_increment d c
  if is_wsl_system inp.wsl then
    { trace :=
        [Action.cmd wsl_check_cmd,
         Action.logDirect StatusType.error
           "ERROR: Running in WSL. NVIDIA driver installation requires native Linux.",
         Action.logDirect StatusType.info
           "This tool is designed for live boot Linux systems or native installations.",
         Action.logDirect StatusType.info "To use this tool:",
         Action.logDirect StatusType.info "1. Create a live USB with Ubuntu/Debian",
         Action.logDirect StatusType.info "2. Boot from the USB on the target system",
         Action.logDirect StatusType.info "3. Run this tool on the live system",
         Action.setRunning false,
         Action.terminal TermEvent.enableInstallButton,
         Action.terminal TermEvent.enableDetectButton,
         Action.terminal TermEvent.resetInstallLabel]
      outcome := RunOutcome.abortedIncompatible }
  else
    let compat := [Action.cmd wsl_check_cmd] ++ compat_warnings inp
    if inp.ping_status ≠ 0 then
      { trace :=
          compat ++
          [Action.cmd ping_cmd,
           Action.logDirect StatusType.error
             "No internet connection detected. Installation requires internet access.",
           Action.setRunning false,
           Action.terminal TermEvent.enableInstallButton,
           Action.terminal TermEvent.enableDetectButton,
           Action.terminal TermEvent.resetInstallLabel,
           Action.terminal TermEvent.errorDialog]
        outcome := RunOutcome.abortedNoConnectivity }
    else
      let steps := install_steps d c inp.distro_codename
      let r := exec_steps inp.step_status inc steps 0 0
      match r.2 with
      | none =>
        { trace :=
            compat ++ [Action.cmd ping_cmd] ++ r.1 ++
            [Action.post 100 (some "Installation completed successfully!")
               "Installation completed successfully!" StatusType.success,
             Action.cmd rm_keyring_cmd,
             Action.setRunning false,
             Action.terminal TermEvent.enableInstallButton,
             Action.terminal TermEvent.enableDetectButton,
             Action.terminal TermEvent.resetInstallLabel,
             Action.terminal TermEvent.completionDialog]
          outcome := RunOutcome.succeeded }
      | some fs =>
        { trace :=
            compat ++ [Action.cmd ping_cmd] ++ r.1 ++
            [Action.cmd autoremove_cmd,
             Action.setRunning false,
             Action.terminal TermEvent.enableInstallButton,
             Action.terminal TermEvent.enableDetectButton,
             Action.terminal TermEvent.resetInstallLabel,
             Action.terminal TermEvent.errorDialog]
          outcome := RunOutcome.failed fs.1.message fs.2 }

/-- The step list of an install run, read off the request input. -/
def claim_steps (inp : InstallInput) : List InstallStep :=
  install_steps inp.install_driver inp.install_cuda inp.distro_codename

/-! ## Derived trace observations -/

/-- Commands executed by a trace, in order. -/
def executed_cmds (tr : List Action) : List String :=
  tr.filterMap fun a => match a with | Action.cmd s => some s | _ => none

/-- The progress values of the posts that carry a message — exactly the
posts `update_progress_ui` uses to move the progress bar. -/
def bar_vals (tr : List Action) : List ℚ :=
  tr.filterMap fun a =>
    match a with | Action.post p (some _) _ _ => some p | _ => none

/-- The values written to `installation_running` by a trace, in order. -/
def set_running_list (tr : List Action) : List Bool :=
  tr.filterMap fun a => match a with | Action.setRunning b => some b | _ => none

/-- Last value written to `installation_running`, if any. -/
def last_set_running (tr : List Action) : Option Bool :=
  (set_running_list tr).getLast?

/-- Scans a trace checking that every terminal post is preceded by a
`setRunning false`. -/
def flag_cleared_first : Bool → List Action → Bool
  | _, [] => true
  | _, Action.setRunning false :: rest => flag_cleared_first true rest
  | seen, Action.setRunning true :: rest => flag_cleared_first seen rest
  | seen, Action.terminal _ :: rest => seen && flag_cleared_first seen rest
  | seen, Action.cmd _ :: rest => flag_cleared_first seen rest
  | seen, Action.post _ _ _ _ :: rest => flag_cleared_first seen rest
  | seen, Action.logDirect _ _ :: rest => flag_cleared_first seen rest

/-- Actions that neither write the running flag nor post a terminal event. -/
def no_control : Action → Bool
  | Action.setRunning _ => false
  | Action.terminal _ => false
  | _ => true

/-- Actions that are pure log lines. -/
def only_log : Action → Bool
  | Action.logDirect _ _ => true
  | _ => false

/-- The package-mutating commands an install run for codename `cn` can
issue (every `run_command_with_progress` target plus the two cleanups);
the probe and gate commands are read-only. -/
def mutating_cmds (cn : Option String) : List String :=
  [update_cmd, prereq_cmd, repo_cmd (codename_str cn), dpkg_cmd, driver_cmd,
   cuda_toolkit_cmd, env_cmd, rm_keyring_cmd, autoremove_cmd]

/-- The number of phase progress bumps of a run (update, prerequisites,
and three per selected option — the `dpkg -i` command shares the
repository phase). -/
def phase_count (d c : Bool) : Nat :=
  2 + (if d then 3 else 0) + (if c then 3 else 0)

/-! ## Button handlers -/

/-- External inputs consumed by `on_install_clicked`: the WSL probe's
result, the last probe's GPU flag, the two checkboxes, both dialogs and
the sudo verification status. -/
structure ClickEnv where
  wsl : CmdResult
  gpu_detected : Bool
  install_driver : Bool
  install_cuda : Bool
  confirmed : Bool
  password : Option String
  sudo_status : Int

/-- What a single `on_install_clicked` invocation did: the commands it ran
synchronously and whether it spawned the installation worker. -/
structure ClickOutcome where
  executed : List String
  spawned : Bool
deriving DecidableEq

/-- `on_install_clicked`: guard on `installation_running`, then the WSL
check (which runs a command), the GPU gate, the empty-selection gate, the
confirmation dialog, the password prompt and the sudo verification
(which runs a command); only then is the worker spawned. -/
def on_install_clicked_handler (running : Bool) (env : ClickEnv) : ClickOutcome :=
  if running then ⟨[], false⟩
  else if is_wsl_system env.wsl then ⟨[wsl_check_cmd], false⟩
  else if env.gpu_detected then
    if env.install_driver || env.install_cuda then
      if env.confirmed then
        match env.password with
        | some _ => ⟨[wsl_check_cmd, sudo_verify_cmd], env.sudo_status == 0⟩
        | none => ⟨[wsl_check_cmd], false⟩
      else ⟨[wsl_check_cmd], false⟩
    else ⟨[wsl_check_cmd], false⟩
  else ⟨[wsl_check_cmd], false⟩

/-- UI-relevant application state, with ghost counters for in-flight
worker threads (the C code keeps no such counter — only
`installation_running` — which is what claim C4 is about). -/
structure AppUIState where
  installation_running : Bool
  detect_sensitive : Bool
  install_sensitive : Bool
  active_probes : Nat
  active_installs : Nat
deriving DecidableEq

/-- `on_detect_clicked`: rejected only while `installation_running`;
otherwise desensitises the detect button and spawns a detection thread
(without setting any running flag). -/
def on_detect_clicked_model (s : AppUIState) : AppUIState :=
  if s.installation_running then s
  else { s with detect_sensitive := false, active_probes := s.active_probes + 1 }

/-- State effect of `on_install_clicked`: when the handler spawns the
worker it sets `installation_running`, desensitises both buttons and
starts an installation thread; otherwise the state is unchanged. -/
def on_install_clicked_model (s : AppUIState) (env : ClickEnv) : AppUIState :=
  if (on_install_clicked_handler s.installation_running env).spawned then
    { s with
        installation_running := true
        detect_sensitive := false
        install_sensitive := false
        active_installs := s.active_installs + 1 }
  else s

/-- Application state right after `main` has spawned the startup detection
thread: no install running, both buttons sensitive, one probe in flight. -/
def startup_probe_state : AppUIState :=
  { installation_running := false
    detect_sensitive := true
    install_sensitive := true
    active_probes := 1
    active_installs := 0 }

/-! ## Concrete inputs used by witnesses and counterexamples -/

/-- A fully favourable install input: driver only, non-WSL, online,
every command succeeding. -/
def all_ok_input : InstallInput :=
  { install_driver := true
    install_cuda := false
    distro_codename := some "jammy"
    wsl := ⟨1, some ""⟩
    is_root := false
    df := ⟨0, some "50000000"⟩
    mokutil := ⟨1, none⟩
    ping_status := 0
    step_status := fun _ => 0
    rm_status := 0
    autoremove_status := 0 }

/-- Driver-only install input whose third command (the keyring download)
fails with status 1. -/
def fail_at_2_input : InstallInput :=
  { all_ok_input with step_status := fun i => if i = 2 then 1 else 0 }

/-- Install input probed as WSL. -/
def wsl_input : InstallInput :=
  { all_ok_input with wsl := ⟨0, some "microsoft"⟩ }

/-- A click environment that passes every gate of `on_install_clicked`. -/
def all_ok_click : ClickEnv :=
  { wsl := ⟨1, some ""⟩
    gpu_detected := true
    install_driver := true
    install_cuda := false
    confirmed := true
    password := some "pw"
    sudo_status := 0 }

/-- A click environment with both checkboxes cleared. -/
def empty_selection_click : ClickEnv :=
  { all_ok_click with install_driver := false, install_cuda := false }

/-- Probe oracle whose codename command captures empty output (for
example `lsb_release` missing: the shell succeeds, stdout is empty)
and whose other probes find nothing. -/
def empty_codename_probe : ProbeEnv :=
  { lsb_output := some ""
    gpu := ⟨1, none⟩
    driver := ⟨1, none⟩
    cuda := ⟨1, none⟩ }

/-- Probe oracle whose codename command captures a single newline, which
`g_strchomp` reduces to the empty string. -/
def newline_codename_probe : ProbeEnv :=
  { lsb_output := some "\n"
    gpu := ⟨0, some "01:00.0 VGA compatible controller: NVIDIA Corporation\n"⟩
    driver := ⟨1, none⟩
    cuda := ⟨1, none⟩ }


/-! ## Helper lemmas about trace observations -/

theorem executed_cmds_append (a b : List Action) :
    executed_cmds (a ++ b) = executed_cmds a ++ executed_cmds b := by
  simp [executed_cmds, List.filterMap_append]

theorem bar_vals_append (a b : List Action) :
    bar_vals (a ++ b) = bar_vals a ++ bar_vals b := by
  simp [bar_vals, List.filterMap_append]

theorem set_running_append (a b : List Action) :
    set_running_list (a ++ b) = set_running_list a ++ set_running_list b := by
  simp [set_running_list, List.filterMap_append]

theorem executed_cmds_cmd (c : String) : executed_cmds [Action.cmd c] = [c] := rfl

theorem bar_vals_cmd (c : String) : bar_vals [Action.cmd c] = [] := rfl

theorem set_running_cmd (c : String) : set_running_list [Action.cmd c] = [] := rfl

theorem filterMap_only_log {α : Type} (f : Action → Option α)
    (hf : ∀ s m, f (Action.logDirect s m) = none) :
    ∀ {l : List Action}, l.all only_log = true → l.filterMap f = [] := by
  intro l h
  rw [List.filterMap_eq_nil_iff]
  intro a ha
  have h2 := (List.all_eq_true.mp h) a ha
  cases a with
  | logDirect s m => exact hf s m
  | cmd c => simp [only_log] at h2
  | post p m lg sv => simp [only_log] at h2
  | setRunning b => simp [only_log] at h2
  | terminal t => simp [only_log] at h2

theorem executed_cmds_only_log {l : List Action} (h : l.all only_log = true) :
    executed_cmds l = [] :=
  filterMap_only_log _ (fun _ _ => rfl) h

theorem bar_vals_only_log {l : List Action} (h : l.all only_log = true) :
    bar_vals l = [] :=
  filterMap_only_log _ (fun _ _ => rfl) h

theorem set_running_only_log {l : List Action} (h : l.all only_log = true) :
    set_running_list l = [] :=
  filterMap_only_log _ (fun _ _ => rfl) h

theorem root_warn_only_log (b : Bool) : (root_warn b).all only_log = true := by
  cases b <;> simp [root_warn, only_log]

theorem df_warn_only_log (r : CmdResult) : (df_warn r).all only_log = true := by
  unfold df_warn
  split
  · split <;> simp [only_log]
  · simp

theorem mok_warn_only_log (r : CmdResult) : (mok_warn r).all only_log = true := by
  unfold mok_warn
  split
  · split <;> simp [only_log]
  · simp

theorem distro_warn_only_log (cn : Option String) : (distro_warn cn).all only_log = true := by
  unfold distro_warn
  split
  · split
    · simp [only_log]
    · split <;> simp [only_log]
  · simp

theorem only_log_imp_no_control {l : List Action} (h : l.all only_log = true) :
    l.all no_control = true := by
  rw [List.all_eq_true] at h ⊢
  intro a ha
  have h2 := h a ha
  cases a <;> simp_all [only_log, no_control]

theorem compat_warnings_no_control (inp : InstallInput) :
    (compat_warnings inp).all no_control = true := by
  have h1 := only_log_imp_no_control (root_warn_only_log inp.is_root)
  have h2 := only_log_imp_no_control (df_warn_only_log inp.df)
  have h3 := only_log_imp_no_control (mok_warn_only_log inp.mokutil)
  have h4 := only_log_imp_no_control (distro_warn_only_log inp.distro_codename)
  simp [compat_warnings, List.all_append, h1, h2, h3, h4, no_control]

theorem executed_compat (inp : InstallInput) :
    executed_cmds (compat_warnings inp) = [df_cmd, mokutil_cmd] := by
  simp only [compat_warnings, executed_cmds_append,
    executed_cmds_only_log (root_warn_only_log inp.is_root),
    executed_cmds_only_log (df_warn_only_log inp.df),
    executed_cmds_only_log (mok_warn_only_log inp.mokutil),
    executed_cmds_only_log (distro_warn_only_log inp.distro_codename),
    executed_cmds_cmd]
  simp

theorem bar_vals_compat (inp : InstallInput) :
    bar_vals (compat_warnings inp) = [] := by
  simp only [compat_warnings, bar_vals_append,
    bar_vals_only_log (root_warn_only_log inp.is_root),
    bar_vals_only_log (df_warn_only_log inp.df),
    bar_vals_only_log (mok_warn_only_log inp.mokutil),
    bar_vals_only_log (distro_warn_only_log inp.distro_codename),
    bar_vals_cmd]
  simp

theorem set_running_compat (inp : InstallInput) :
    set_running_list (compat_warnings inp) = [] := by
  simp only [compat_warnings, set_running_append,
    set_running_only_log (root_warn_only_log inp.is_root),
    set_running_only_log (df_warn_only_log inp.df),
    set_running_only_log (mok_warn_only_log inp.mokutil),
    set_running_only_log (distro_warn_only_log inp.distro_codename),
    set_running_cmd]
  simp

theorem set_running_no_control {l : List Action} (h : l.all no_control = true) :
    set_running_list l = [] := by
  rw [set_running_list, List.filterMap_eq_nil_iff]
  intro a ha
  have h2 := (List.all_eq_true.mp h) a ha
  cases a <;> simp_all [no_control]

theorem flag_cleared_append_no_control :
    ∀ (l : List Action), l.all no_control = true →
      ∀ (seen : Bool) (rest : List Action),
        flag_cleared_first seen (l ++ rest) = flag_cleared_first seen rest
  | [], _, _, _ => rfl
  | a :: t, h, seen, rest => by
      rw [List.all_cons, Bool.and_eq_true] at h
      cases a with
      | cmd c =>
          simp only [List.cons_append, flag_cleared_first]
          exact flag_cleared_append_no_control t h.2 seen rest
      | post p m lg sv =>
          simp only [List.cons_append, flag_cleared_first]
          exact flag_cleared_append_no_control t h.2 seen rest
      | logDirect sv m =>
          simp only [List.cons_append, flag_cleared_first]
          exact flag_cleared_append_no_control t h.2 seen rest
      | setRunning b => simp [no_control] at h
      | terminal t2 => simp [no_control] at h

/-! ## Helper lemmas about `exec_steps` -/

theorem exec_steps_no_control (st : Nat → Int) (inc : ℚ) (steps : List InstallStep) :
    ∀ (i : Nat) (p : ℚ), (exec_steps st inc steps i p).1.all no_control = true := by
  induction steps with
  | nil => intro i p; rfl
  | cons s rest ih =>
      intro i p
      by_cases hb : s.bumps <;> by_cases hs : st i = 0 <;>
        simp [exec_steps, hb, hs, List.all_append, no_control, ih]

theorem executed_cmds_nil : executed_cmds [] = [] := rfl

theorem executed_cmds_cons_post (p : ℚ) (m : Option String) (lg : String)
    (sv : StatusType) (tr : List Action) :
    executed_cmds (Action.post p m lg sv :: tr) = executed_cmds tr := rfl

theorem executed_cmds_cons_cmd (c : String) (tr : List Action) :
    executed_cmds (Action.cmd c :: tr) = c :: executed_cmds tr := rfl

theorem executed_cmds_phase (c : Prop) [Decidable c] (p : ℚ) (m : Option String)
    (lg : String) (sv : StatusType) :
    executed_cmds (if c then [Action.post p m lg sv] else []) = [] := by
  split <;> rfl

theorem exec_steps_cons (st : Nat → Int) (inc : ℚ) (s : InstallStep)
    (rest : List InstallStep) (i : Nat) (p : ℚ) :
    exec_steps st inc (s :: rest) i p =
      if st i = 0 then
        ((if s.bumps then
            [Action.post (if s.bumps then p + inc else p) (some s.message) s.log_text
              StatusType.info]
          else []) ++
         [Action.post 0 none ("Running: " ++ s.command) StatusType.info,
          Action.cmd s.command] ++
         [Action.post inc none "Command completed successfully" StatusType.success] ++
         (exec_steps st inc rest (i + 1) (if s.bumps then p + inc else p)).1,
         (exec_steps st inc rest (i + 1) (if s.bumps then p + inc else p)).2)
      else
        ((if s.bumps then
            [Action.post (if s.bumps then p + inc else p) (some s.message) s.log_text
              StatusType.info]
          else []) ++
         [Action.post 0 none ("Running: " ++ s.command) StatusType.info,
          Action.cmd s.command] ++
         [Action.post 0 none ("Command failed with exit code " ++ toString (st i))
            StatusType.error],
         some (s, st i)) := by
  by_cases hs : st i = 0 <;> cases hb : s.bumps <;>
    simp [exec_steps, hs, hb, List.append_assoc]

theorem exec_steps_cmds_subset (st : Nat → Int) (inc : ℚ) (steps : List InstallStep) :
    ∀ (i : Nat) (p : ℚ),
      executed_cmds (exec_steps st inc steps i p).1 ⊆ steps.map InstallStep.command := by
  induction steps with
  | nil => intro i p; simp [exec_steps, executed_cmds]
  | cons s rest ih =>
      intro i p
      by_cases hs : st i = 0
      · cases hb : s.bumps
        · have hexec : executed_cmds (exec_steps st inc (s :: rest) i p).1 =
              s.command :: executed_cmds (exec_steps st inc rest (i + 1) p).1 := by
            rw [exec_steps_cons, if_pos hs]
            simp [hb, executed_cmds_append, executed_cmds]
          rw [hexec, List.map_cons]
          exact List.cons_subset_cons _ (ih _ _)
        · have hexec : executed_cmds (exec_steps st inc (s :: rest) i p).1 =
              s.command :: executed_cmds (exec_steps st inc rest (i + 1) (p + inc)).1 := by
            rw [exec_steps_cons, if_pos hs]
            simp [hb, executed_cmds_append, executed_cmds]
          rw [hexec, List.map_cons]
          exact List.cons_subset_cons _ (ih _ _)
      · have hexec : executed_cmds (exec_steps st inc (s :: rest) i p).1 = [s.command] := by
          rw [exec_steps_cons, if_neg hs]
          cases hb : s.bumps <;> simp [hb, executed_cmds_append, executed_cmds]
        rw [hexec, List.map_cons]
        simp

theorem exec_steps_executed_of_none (st : Nat → Int) (inc : ℚ) (steps : List InstallStep) :
    ∀ (i : Nat) (p : ℚ), (exec_steps st inc steps i p).2 = none →
      executed_cmds (exec_steps st inc steps i p).1 = steps.map InstallStep.command := by
  induction steps with
  | nil => intro i p _; rfl
  | cons s rest ih =>
      intro i p h
      by_cases hs : st i = 0
      · have h2 : (exec_steps st inc rest (i + 1) (if s.bumps then p + inc else p)).2 = none := by
          by_cases hb : s.bumps <;> simpa [exec_steps, hb, hs] using h
        have h3 := ih (i + 1) (if s.bumps then p + inc else p) h2
        by_cases hb : s.bumps <;>
          simp_all [exec_steps, hb, hs, executed_cmds_append, executed_cmds]
      · exfalso
        by_cases hb : s.bumps <;> simp [exec_steps, hb, hs] at h

theorem exec_steps_all_ok (st : Nat → Int) (inc : ℚ) (h : ∀ i, st i = 0)
    (steps : List InstallStep) :
    ∀ (i : Nat) (p : ℚ),
      (exec_steps st inc steps i p).2 = none ∧
      executed_cmds (exec_steps st inc steps i p).1 = steps.map InstallStep.command := by
  induction steps with
  | nil => intro i p; exact ⟨rfl, rfl⟩
  | cons s rest ih =>
      intro i p
      obtain ⟨ih1, ih2⟩ := ih (i + 1) (if s.bumps then p + inc else p)
      by_cases hb : s.bumps <;>
        simp_all [exec_steps, hb, h, executed_cmds_append, executed_cmds]

theorem exec_steps_first_fail (st : Nat → Int) (inc : ℚ) (steps : List InstallStep) :
    ∀ (i k : Nat) (p : ℚ) (hk : k < steps.length),
      (∀ j, j < k → st (i + j) = 0) → st (i + k) ≠ 0 →
      (exec_steps st inc steps i p).2 = some (steps.get ⟨k, hk⟩, st (i + k)) ∧
      executed_cmds (exec_steps st inc steps i p).1 =
        (steps.take (k + 1)).map InstallStep.command ∧
      Action.post 0 none ("Command failed with exit code " ++ toString (st (i + k)))
        StatusType.error ∈ (exec_steps st inc steps i p).1 := by
  induction steps with
  | nil => intro i k p hk; exact absurd hk (by simp)
  | cons s rest ih =>
      intro i k p hk h0 hf
      cases k with
      | zero =>
          have hs : st i ≠ 0 := by simpa using hf
          rw [exec_steps_cons, if_neg hs]
          refine ⟨by simp [List.get], ?_, ?_⟩
          · cases hb : s.bumps <;>
              simp [hb, executed_cmds_append, executed_cmds]
          · cases hb : s.bumps <;> simp [hb]
      | succ k2 =>
          have hs0 : st i = 0 := by simpa using h0 0 (Nat.succ_pos k2)
          have hk2 : k2 < rest.length := by simpa using hk
          have e : i + (k2 + 1) = i + 1 + k2 := by omega
          have h0b : ∀ j, j < k2 → st (i + 1 + j) = 0 := by
            intro j hj
            have h2 := h0 (j + 1) (by omega)
            have e2 : i + (j + 1) = i + 1 + j := by omega
            rwa [e2] at h2
          have hfb : st (i + 1 + k2) ≠ 0 := by rwa [e] at hf
          obtain ⟨a1, a2, a3⟩ := ih (i + 1) k2 (if s.bumps then p + inc else p) hk2 h0b hfb
          rw [exec_steps_cons, if_pos hs0, e]
          refine ⟨a1, ?_, List.mem_append_right _ a3⟩
          simp only [executed_cmds_append, executed_cmds_phase, executed_cmds_cons_post,
            executed_cmds_cons_cmd, executed_cmds_nil, List.nil_append,
            List.singleton_append, List.append_nil, List.take_succ_cons, List.map_cons]
          rw [a2]


/-! ## Disequalities between command strings -/

theorem repo_cmd_length_ge (s : String) : (repo_cmd "").length ≤ (repo_cmd s).length := by
  simp only [repo_cmd, String.length_append, String.length_empty]
  omega

theorem ne_repo_of_short {x : String} (h : x.length < (repo_cmd "").length)
    (s : String) : x ≠ repo_cmd s := by
  intro he
  have h2 := repo_cmd_length_ge s
  rw [← he] at h2
  omega

theorem cleanup_cmds_not_steps (d c : Bool) (cn : Option String) :
    rm_keyring_cmd ∉ (install_steps d c cn).map InstallStep.command ∧
    autoremove_cmd ∉ (install_steps d c cn).map InstallStep.command := by
  refine ⟨?_, ?_⟩ <;>
    cases d <;> cases c <;> intro h <;>
    simp [install_steps, update_cmd, prereq_cmd, dpkg_cmd, driver_cmd,
      cuda_toolkit_cmd, env_cmd, rm_keyring_cmd, autoremove_cmd] at h <;>
    exact absurd h (ne_repo_of_short (by decide) _)

theorem wsl_cmd_not_mutating (cn : Option String) :
    wsl_check_cmd ∉ mutating_cmds cn := by
  intro h
  simp [mutating_cmds, update_cmd, prereq_cmd, dpkg_cmd, driver_cmd, cuda_toolkit_cmd,
    env_cmd, rm_keyring_cmd, autoremove_cmd, wsl_check_cmd] at h
  exact absurd h (ne_repo_of_short (by decide) _)

/-! ## Branch characterizations of the installation thread -/

theorem inst_wsl_char (inp : InstallInput) (hw : is_wsl_system inp.wsl = true) :
    installation_thread_model inp =
      { trace :=
          [Action.cmd wsl_check_cmd,
           Action.logDirect StatusType.error
             "ERROR: Running in WSL. NVIDIA driver installation requires native Linux.",
           Action.logDirect StatusType.info
             "This tool is designed for live boot Linux systems or native installations.",
           Action.logDirect StatusType.info "To use this tool:",
           Action.logDirect StatusType.info "1. Create a live USB with Ubuntu/Debian",
           Action.logDirect StatusType.info "2. Boot from the USB on the target system",
           Action.logDirect StatusType.info "3. Run this tool on the live system",
           Action.setRunning false,
           Action.terminal TermEvent.enableInstallButton,
           Action.terminal TermEvent.enableDetectButton,
           Action.terminal TermEvent.resetInstallLabel]
        outcome := RunOutcome.abortedIncompatible } := by
  simp [installation_thread_model, hw]

theorem inst_noping_char (inp : InstallInput) (hw : is_wsl_system inp.wsl = false)
    (hp : inp.ping_status ≠ 0) :
    installation_thread_model inp =
      { trace :=
          [Action.cmd wsl_check_cmd] ++ compat_warnings inp ++
          [Action.cmd ping_cmd,
           Action.logDirect StatusType.error
             "No internet connection detected. Installation requires internet access.",
           Action.setRunning false,
           Action.terminal TermEvent.enableInstallButton,
           Action.terminal TermEvent.enableDetectButton,
           Action.terminal TermEvent.resetInstallLabel,
           Action.terminal TermEvent.errorDialog]
        outcome := RunOutcome.abortedNoConnectivity } := by
  simp [installation_thread_model, hw, hp]

theorem inst_success_char (inp : InstallInput) (hw : is_wsl_system inp.wsl = false)
    (hp : inp.ping_status = 0)
    (hx : (exec_steps inp.step_status
        (progress_increment inp.install_driver inp.install_cuda)
        (claim_steps inp) 0 0).2 = none) :
    installation_thread_model inp =
      { trace :=
          [Action.cmd wsl_check_cmd] ++ compat_warnings inp ++ [Action.cmd ping_cmd] ++
          (exec_steps inp.step_status
            (progress_increment inp.install_driver inp.install_cuda)
            (claim_steps inp) 0 0).1 ++
          [Action.post 100 (some "Installation completed successfully!")
             "Installation completed successfully!" StatusType.success,
           Action.cmd rm_keyring_cmd,
           Action.setRunning false,
           Action.terminal TermEvent.enableInstallButton,
           Action.terminal TermEvent.enableDetectButton,
           Action.terminal TermEvent.resetInstallLabel,
           Action.terminal TermEvent.completionDialog]
        outcome := RunOutcome.succeeded } := by
  rw [claim_steps] at hx
  simp [installation_thread_model, hw, hp, hx, claim_steps]

theorem inst_fail_char (inp : InstallInput) (hw : is_wsl_system inp.wsl = false)
    (hp : inp.ping_status = 0) {fs : InstallStep × Int}
    (hx : (exec_steps inp.step_status
        (progress_increment inp.install_driver inp.install_cuda)
        (claim_steps inp) 0 0).2 = some fs) :
    installation_thread_model inp =
      { trace :=
          [Action.cmd wsl_check_cmd] ++ compat_warnings inp ++ [Action.cmd ping_cmd] ++
          (exec_steps inp.step_status
            (progress_increment inp.install_driver inp.install_cuda)
            (claim_steps inp) 0 0).1 ++
          [Action.cmd autoremove_cmd,
           Action.setRunning false,
           Action.terminal TermEvent.enableInstallButton,
           Action.terminal TermEvent.enableDetectButton,
           Action.terminal TermEvent.resetInstallLabel,
           Action.terminal TermEvent.errorDialog]
        outcome := RunOutcome.failed fs.1.message fs.2 } := by
  rw [claim_steps] at hx
  simp [installation_thread_model, hw, hp, hx, claim_steps]


/-! ## Log-cap helper lemmas -/

theorem log_insert_length_le (buf : List String) (line : String)
    (h : buf.length + 1 ≤ MAX_LOG_LINES) :
    (log_insert buf line).length + 1 ≤ MAX_LOG_LINES := by
  simp only [log_insert, MAX_LOG_LINES] at h ⊢
  split <;>
    simp only [List.length_append, List.length_drop, List.length_cons, List.length_nil] <;>
    omega

theorem mem_log_insert {x : String} {buf : List String} {line : String}
    (h : x ∈ log_insert buf line) : x ∈ buf ∨ x = line := by
  simp only [log_insert] at h
  split at h <;> rcases List.mem_append.mp h with h2 | h2
  · exact Or.inl (List.drop_subset _ _ h2)
  · exact Or.inr (by simpa using h2)
  · exact Or.inl h2
  · exact Or.inr (by simpa using h2)

theorem foldl_log_length (entries : List (String × StatusType × String)) :
    ∀ buf : List String, buf.length + 1 ≤ MAX_LOG_LINES →
      (entries.foldl (fun b e => log_message_model b e.1 e.2.1 e.2.2) buf).length + 1 ≤
        MAX_LOG_LINES := by
  induction entries with
  | nil => intro buf h; simpa using h
  | cons e t ih => intro buf h; exact ih _ (log_insert_length_le _ _ h)

theorem foldl_log_mem (entries : List (String × StatusType × String)) :
    ∀ (buf : List String) (x : String),
      x ∈ entries.foldl (fun b e => log_message_model b e.1 e.2.1 e.2.2) buf →
      x ∈ buf ∨ ∃ e, e ∈ entries ∧ x = formatted_log_line e.1 e.2.1 e.2.2 := by
  induction entries with
  | nil => intro buf x h; exact Or.inl (by simpa using h)
  | cons e t ih =>
      intro buf x h
      rcases ih _ x (by simpa using h) with h2 | h2
      · rcases mem_log_insert h2 with h3 | h3
        · exact Or.inl h3
        · exact Or.inr ⟨e, List.mem_cons_self _ _, h3⟩
      · obtain ⟨e2, he2, hx⟩ := h2
        exact Or.inr ⟨e2, List.mem_cons_of_mem _ he2, hx⟩

/-! ## Claim theorems -/

/-- Claim C5: the console log retains at most `MAX_LOG_LINES` buffer lines
(the message lines plus the GtkTextBuffer's trailing empty line, modelled
as `buf.length + 1`); inserting one more line when the buffer is at the cap
evicts exactly the single oldest line, returning the count to the cap; and
every retained line is the `"[timestamp] [SEVERITY] message"` formatting of
one of the inserted log events. -/
theorem C5_log_cap :
    (∀ (buf : List String) (line : String), buf.length + 1 ≤ MAX_LOG_LINES →
        (log_insert buf line).length + 1 ≤ MAX_LOG_LINES) ∧
    (∀ (buf : List String) (line : String), buf.length + 1 = MAX_LOG_LINES →
        log_insert buf line = buf.drop 1 ++ [line] ∧
        (log_insert buf line).length + 1 = MAX_LOG_LINES) ∧
    (∀ entries : List (String × StatusType × String),
        ((entries.foldl (fun b e => log_message_model b e.1 e.2.1 e.2.2) []).length + 1 ≤
          MAX_LOG_LINES) ∧
        ∀ x, x ∈ entries.foldl (fun b e => log_message_model b e.1 e.2.1 e.2.2) [] →
          ∃ e, e ∈ entries ∧ x = formatted_log_line e.1 e.2.1 e.2.2) := by
  refine ⟨log_insert_length_le, ?_, ?_⟩
  · intro buf line h
    have hle : MAX_LOG_LINES ≤ buf.length + 1 := le_of_eq h.symm
    have h1 : buf.length + 1 - MAX_LOG_LINES + 1 = 1 := by omega
    have he : log_insert buf line = buf.drop 1 ++ [line] := by
      simp only [log_insert, if_pos hle, h1]
    refine ⟨he, ?_⟩
    rw [he]
    simp only [List.length_append, List.length_drop, List.length_cons, List.length_nil]
    simp only [MAX_LOG_LINES] at h ⊢
    omega
  · intro entries
    refine ⟨foldl_log_length entries [] (by simp [MAX_LOG_LINES]), ?_⟩
    intro x hx
    rcases foldl_log_mem entries [] x hx with h | h
    · exact absurd h (List.not_mem_nil x)
    · exact h

/-- Witness for C5: a buffer of 999 lines is at the cap (the GTK line count
is 1000) and inserting evicts exactly the oldest line. -/
theorem C5_log_cap_witness :
    (List.replicate 999 "x").length + 1 = MAX_LOG_LINES ∧
    log_insert (List.replicate 999 "x") "y" = (List.replicate 999 "x").drop 1 ++ ["y"] := by
  have h : (List.replicate 999 "x").length + 1 = MAX_LOG_LINES := by
    simp [MAX_LOG_LINES]
  exact ⟨h, (C5_log_cap.2.1 (List.replicate 999 "x") "y" h).1⟩

/-- Claim C6 (code bug): a probe whose codename command captures empty
output leaves `distro_codename` as the empty string — neither a sentinel
nor non-empty — even though the three detection fields do receive their
sentinel texts.  The C code tests the pointer for NULL, not the string for
emptiness. -/
theorem C6_sentinel_code_bug :
    (detection_thread_model empty_codename_probe init_system_info).1 =
      { gpu_detected := false
        gpu_info := "No NVIDIA GPU detected"
        driver_installed := false
        driver_info := "Not installed"
        cuda_installed := false
        cuda_info := "Not installed"
        distro_codename := some "" } ∧
    (detection_thread_model empty_codename_probe init_system_info).1.distro_codename =
      some "" := by
  exact ⟨by decide, by decide⟩

/-- Claim C7 (code bug): when the codename command's output is a lone
newline (empty after `g_strchomp`), the probe does not fall back to
"unknown" and emits no Warning event; it logs the empty codename with Info
severity and continues. -/
theorem C7_codename_fallback_code_bug :
    (detection_thread_model newline_codename_probe init_system_info).1.distro_codename =
      some "" ∧
    (detection_thread_model newline_codename_probe init_system_info).1.distro_codename ≠
      some "unknown" ∧
    (⟨StatusType.warning, "Unable to detect distribution codename"⟩ : LogEvent) ∉
      (detection_thread_model newline_codename_probe init_system_info).2 ∧
    (⟨StatusType.info, "Distribution codename: "⟩ : LogEvent) ∈
      (detection_thread_model newline_codename_probe init_system_info).2 := by
  refine ⟨by decide, by decide, by decide, by decide⟩

/-- Claim C8 (counterexample): with both checkboxes cleared the handler
does reject synchronously without spawning a worker, but it has already
executed the read-only WSL probe command, refuting "without executing any
command". -/
theorem C8_empty_selection_counterexample :
    on_install_clicked_handler false empty_selection_click =
      { executed := [wsl_check_cmd], spawned := false } ∧
    ([wsl_check_cmd] : List String) ≠ [] := by
  exact ⟨by decide, by decide⟩

/-- Claim C8 (amended): with both options cleared the request is rejected
synchronously — no worker is spawned — and the handler executes no command
other than (at most) the read-only WSL probe; in particular no
package-mutating command runs. -/
theorem C8_empty_selection_amended (running : Bool) (env : ClickEnv)
    (hd : env.install_driver = false) (hc : env.install_cuda = false) :
    (on_install_clicked_handler running env).spawned = false ∧
    ((on_install_clicked_handler running env).executed = [] ∨
      (on_install_clicked_handler running env).executed = [wsl_check_cmd]) ∧
    ∀ cn, (on_install_clicked_handler running env).executed.filter
        (fun c2 => decide (c2 ∈ mutating_cmds cn)) = [] := by
  have hcases : on_install_clicked_handler running env =
      { executed := [], spawned := false } ∨
      on_install_clicked_handler running env =
      { executed := [wsl_check_cmd], spawned := false } := by
    by_cases hr : running
    · exact Or.inl (by simp [on_install_clicked_handler, hr])
    · by_cases hw : is_wsl_system env.wsl
      · exact Or.inr (by simp [on_install_clicked_handler, hr, hw])
      · by_cases hg : env.gpu_detected
        · exact Or.inr (by simp [on_install_clicked_handler, hr, hw, hg, hd, hc])
        · exact Or.inr (by simp [on_install_clicked_handler, hr, hw, hg])
  rcases hcases with h | h <;> rw [h] <;>
    refine ⟨rfl, by simp, ?_⟩ <;> intro cn <;>
    simp [List.filter, decide_eq_false (wsl_cmd_not_mutating cn)]

/-- Witness for C8 (amended): concrete double-false click. -/
theorem C8_empty_selection_amended_witness :
    (on_install_clicked_handler false empty_selection_click).spawned = false :=
  (C8_empty_selection_amended false empty_selection_click rfl rfl).1

/-- Claim C4 (counterexample): right after startup, one probe worker is in
flight and `installation_running` is still false, so both a detect click
(spawning a second probe) and a fully confirmed install click (spawning an
install worker concurrent with the probe) are accepted rather than
rejected. -/
theorem C4_single_worker_counterexample :
    startup_probe_state.active_probes = 1 ∧
    on_detect_clicked_model startup_probe_state =
      { installation_running := false, detect_sensitive := false,
        install_sensitive := true, active_probes := 2, active_installs := 0 } ∧
    on_install_clicked_model startup_probe_state all_ok_click =
      { installation_running := true, detect_sensitive := false,
        install_sensitive := false, active_probes := 1, active_installs := 1 } := by
  refine ⟨by decide, by decide, by decide⟩

/-- Claim C4 (amended): only `installation_running` guards the handlers:
while an install run is in flight both requests are no-ops (nothing
executed, nothing spawned, state unchanged); a probe run sets no flag, so
it does not cause rejection. -/
theorem C4_single_worker_amended (s : AppUIState) (env : ClickEnv)
    (h : s.installation_running = true) :
    on_detect_clicked_model s = s ∧
    on_install_clicked_model s env = s ∧
    on_install_clicked_handler s.installation_running env =
      { executed := [], spawned := false } := by
  refine ⟨?_, ?_, ?_⟩ <;>
    simp [on_detect_clicked_model, on_install_clicked_model, on_install_clicked_handler, h]

/-- Witness for C4 (amended): a state with an install in flight rejects a
detect click as a no-op. -/
theorem C4_single_worker_amended_witness :
    on_detect_clicked_model
      { installation_running := true, detect_sensitive := false,
        install_sensitive := false, active_probes := 0, active_installs := 1 } =
      { installation_running := true, detect_sensitive := false,
        install_sensitive := false, active_probes := 0, active_installs := 1 } :=
  (C4_single_worker_amended _ all_ok_click rfl).1

/-- Claim C3: with the WSL kernel-marker present, the install run aborts as
incompatible after executing only the read-only `/proc/version` check:
no package-mutating command is executed. -/
theorem C3_wsl_gate (inp : InstallInput) (h : is_wsl_system inp.wsl = true) :
    (installation_thread_model inp).outcome = RunOutcome.abortedIncompatible ∧
    executed_cmds (installation_thread_model inp).trace = [wsl_check_cmd] ∧
    ∀ cn, (executed_cmds (installation_thread_model inp).trace).filter
        (fun c2 => decide (c2 ∈ mutating_cmds cn)) = [] := by
  have hchar := inst_wsl_char inp h
  refine ⟨by rw [hchar], ?_, ?_⟩
  · rw [hchar]
    simp [executed_cmds]
  · intro cn
    rw [hchar]
    simp [executed_cmds, List.filter, decide_eq_false (wsl_cmd_not_mutating cn)]

/-- Witness for C3: a concrete WSL-detected run aborts as incompatible. -/
theorem C3_wsl_gate_witness :
    (installation_thread_model wsl_input).outcome = RunOutcome.abortedIncompatible :=
  (C3_wsl_gate wsl_input (by decide)).1

/-- Claim C1 (counterexample): the code computes
`total_steps = 1 + 4·installDriver + 4·installCuda` (line 570), so a
driver-only request yields `total_steps = 5` with `progress_increment`
20 — not the claimed `2 + 4·1 + 4·0 = 6` steps of weight `100/6`. -/
theorem C1_total_steps_counterexample :
    total_steps true false = 5 ∧
    total_steps true false ≠ 2 + 4 * 1 + 4 * 0 ∧
    progress_increment true false = 20 ∧
    progress_increment true false ≠ 100 / 6 := by
  refine ⟨by decide, by decide, ?_, ?_⟩ <;>
    norm_num [progress_increment, total_steps]


/-! ## Executed-command characterizations of whole runs -/

theorem executed_cmds_cons_set (b : Bool) (tr : List Action) :
    executed_cmds (Action.setRunning b :: tr) = executed_cmds tr := rfl

theorem executed_cmds_cons_term (t : TermEvent) (tr : List Action) :
    executed_cmds (Action.terminal t :: tr) = executed_cmds tr := rfl

theorem executed_cmds_cons_log (sv : StatusType) (m : String) (tr : List Action) :
    executed_cmds (Action.logDirect sv m :: tr) = executed_cmds tr := rfl

theorem executed_cmds_success_char (inp : InstallInput)
    (hw : is_wsl_system inp.wsl = false) (hp : inp.ping_status = 0)
    (hx : (exec_steps inp.step_status
        (progress_increment inp.install_driver inp.install_cuda)
        (claim_steps inp) 0 0).2 = none) :
    executed_cmds (installation_thread_model inp).trace =
      [wsl_check_cmd, df_cmd, mokutil_cmd, ping_cmd] ++
        (claim_steps inp).map InstallStep.command ++ [rm_keyring_cmd] := by
  have hexec := exec_steps_executed_of_none inp.step_status
    (progress_increment inp.install_driver inp.install_cuda) (claim_steps inp) 0 0 hx
  rw [inst_success_char inp hw hp hx]
  simp only [executed_cmds_append, executed_cmds_cmd, executed_compat, hexec,
    executed_cmds_cons_post, executed_cmds_cons_cmd, executed_cmds_cons_set,
    executed_cmds_cons_term, executed_cmds_nil]
  simp

theorem executed_cmds_fail_char (inp : InstallInput)
    (hw : is_wsl_system inp.wsl = false) (hp : inp.ping_status = 0)
    {fs : InstallStep × Int}
    (hx : (exec_steps inp.step_status
        (progress_increment inp.install_driver inp.install_cuda)
        (claim_steps inp) 0 0).2 = some fs) :
    executed_cmds (installation_thread_model inp).trace =
      [wsl_check_cmd, df_cmd, mokutil_cmd, ping_cmd] ++
        executed_cmds (exec_steps inp.step_status
          (progress_increment inp.install_driver inp.install_cuda)
          (claim_steps inp) 0 0).1 ++ [autoremove_cmd] := by
  rw [inst_fail_char inp hw hp hx]
  simp only [executed_cmds_append, executed_cmds_cmd, executed_compat,
    executed_cmds_cons_post, executed_cmds_cons_cmd, executed_cmds_cons_set,
    executed_cmds_cons_term, executed_cmds_nil]
  simp

/-- Claim C1 (amended): the run computes `total_steps = 1 + 4·d + 4·c` and
`progress_increment = 100 / total_steps`; a fully successful run posts
`phase_count d c = 2 + 3·d + 3·c` increasing bar values `k · increment`
followed by a final explicit 100, and executes the gate checks, all step
commands and the keyring cleanup; the phase increments sum to 100 exactly
when a single option is selected (for driver-only: 5 increments of 20 over
6 executed commands). -/
theorem C1_progress_amended (inp : InstallInput)
    (hw : is_wsl_system inp.wsl = false)
    (hp : inp.ping_status = 0)
    (hs : ∀ i, inp.step_status i = 0)
    (hdc : inp.install_driver = true ∨ inp.install_cuda = true) :
    (installation_thread_model inp).outcome = RunOutcome.succeeded ∧
    bar_vals (installation_thread_model inp).trace =
      (List.range (phase_count inp.install_driver inp.install_cuda)).map
        (fun k => ((k : ℚ) + 1) *
          progress_increment inp.install_driver inp.install_cuda) ++ [100] ∧
    executed_cmds (installation_thread_model inp).trace =
      [wsl_check_cmd, df_cmd, mokutil_cmd, ping_cmd] ++
        (claim_steps inp).map InstallStep.command ++ [rm_keyring_cmd] ∧
    (inp.install_driver ≠ inp.install_cuda →
      (phase_count inp.install_driver inp.install_cuda : ℚ) *
        progress_increment inp.install_driver inp.install_cuda = 100) := by
  have hall := exec_steps_all_ok inp.step_status
    (progress_increment inp.install_driver inp.install_cuda) hs (claim_steps inp) 0 0
  have hchar := inst_success_char inp hw hp hall.1
  have hex := executed_cmds_success_char inp hw hp hall.1
  refine ⟨by rw [hchar], ?_, hex, ?_⟩
  · rw [hchar]
    simp only [bar_vals_append, bar_vals_cmd, bar_vals_compat, List.nil_append]
    cases hd : inp.install_driver <;> cases hc : inp.install_cuda
    · exact absurd hdc (by simp [hd, hc])
    · simp [claim_steps, hd, hc, install_steps, exec_steps, hs, bar_vals,
        progress_increment, total_steps, phase_count, List.range_succ]
      norm_num
    · simp [claim_steps, hd, hc, install_steps, exec_steps, hs, bar_vals,
        progress_increment, total_steps, phase_count, List.range_succ]
      norm_num
    · simp [claim_steps, hd, hc, install_steps, exec_steps, hs, bar_vals,
        progress_increment, total_steps, phase_count, List.range_succ]
      norm_num
  · intro hne
    cases hd : inp.install_driver <;> cases hc : inp.install_cuda <;>
      rw [hd, hc] at hne
    · exact absurd rfl hne
    · norm_num [phase_count, progress_increment, total_steps]
    · norm_num [phase_count, progress_increment, total_steps]
    · exact absurd rfl hne

/-- Witness for C1 (amended): a concrete driver-only all-success run. -/
theorem C1_progress_amended_witness :
    (installation_thread_model all_ok_input).outcome = RunOutcome.succeeded :=
  (C1_progress_amended all_ok_input (by decide) rfl (fun _ => rfl) (Or.inl rfl)).1

/-- Claim C2: if step k is the first step whose command returns non-zero,
no later step command runs, exactly one best-effort `autoremove` cleanup is
attempted (its own exit status never influences the outcome), the failure
log event carries step k's exit status, and the run terminates as `Failed`
with step k's phase description and exit status. -/
theorem C2_first_failure_aborts (inp : InstallInput) (k : Nat)
    (hw : is_wsl_system inp.wsl = false)
    (hp : inp.ping_status = 0)
    (hk : k < (claim_steps inp).length)
    (h0 : ∀ j, j < k → inp.step_status j = 0)
    (hf : inp.step_status k ≠ 0) :
    (installation_thread_model inp).outcome =
      RunOutcome.failed ((claim_steps inp).get ⟨k, hk⟩).message (inp.step_status k) ∧
    executed_cmds (installation_thread_model inp).trace =
      [wsl_check_cmd, df_cmd, mokutil_cmd, ping_cmd] ++
        ((claim_steps inp).take (k + 1)).map InstallStep.command ++ [autoremove_cmd] ∧
    Action.post 0 none
        ("Command failed with exit code " ++ toString (inp.step_status k))
        StatusType.error ∈ (installation_thread_model inp).trace ∧
    ∀ s, (installation_thread_model { inp with autoremove_status := s }).outcome =
      (installation_thread_model inp).outcome := by
  obtain ⟨a1, a2, a3⟩ := exec_steps_first_fail inp.step_status
    (progress_increment inp.install_driver inp.install_cuda) (claim_steps inp)
    0 k 0 hk (fun j hj => by rw [Nat.zero_add]; exact h0 j hj)
    (by rw [Nat.zero_add]; exact hf)
  simp only [Nat.zero_add] at a1 a3
  have hchar := inst_fail_char inp hw hp a1
  have hex := executed_cmds_fail_char inp hw hp a1
  refine ⟨by rw [hchar], ?_, ?_, ?_⟩
  · rw [hex, a2]
  · rw [hchar]
    exact List.mem_append_left _ (List.mem_append_right _ a3)
  · intro s
    have a1b : (exec_steps ({ inp with autoremove_status := s } : InstallInput).step_status
        (progress_increment ({ inp with autoremove_status := s } : InstallInput).install_driver
          ({ inp with autoremove_status := s } : InstallInput).install_cuda)
        (claim_steps { inp with autoremove_status := s }) 0 0).2 =
        some ((claim_steps inp).get ⟨k, hk⟩, inp.step_status k) := a1
    rw [inst_fail_char { inp with autoremove_status := s } hw hp a1b, hchar]

/-- Witness for C2: a driver-only run whose third command (the keyring
download) fails with status 1. -/
theorem C2_first_failure_aborts_witness :
    (installation_thread_model fail_at_2_input).outcome =
      RunOutcome.failed "Adding NVIDIA repository..." 1 := by
  have h := C2_first_failure_aborts fail_at_2_input 2 (by decide) rfl (by decide)
    (by intro j hj; interval_cases j <;> rfl) (by decide)
  rw [h.1]
  decide

/-- Claim C9: on every exit path of the installation thread the
`installation_running` flag is reset to false before any terminal event is
posted, the last flag write is `false`, and a subsequent request is
accepted again: a detect click with the flag clear spawns a probe, and an
install click with the flag clear proceeds past the running-guard. -/
theorem C9_flag_reset (inp : InstallInput) (env : ClickEnv) :
    flag_cleared_first false (installation_thread_model inp).trace = true ∧
    last_set_running (installation_thread_model inp).trace = some false ∧
    (∀ s : AppUIState, s.installation_running = false →
        on_detect_clicked_model s =
          { s with detect_sensitive := false, active_probes := s.active_probes + 1 }) ∧
    (on_install_clicked_handler false env).executed ≠ [] := by
  have hmain : flag_cleared_first false (installation_thread_model inp).trace = true ∧
      last_set_running (installation_thread_model inp).trace = some false := by
    by_cases hw : is_wsl_system inp.wsl
    · rw [inst_wsl_char inp hw]
      exact ⟨rfl, rfl⟩
    · have hw2 : is_wsl_system inp.wsl = false := by simpa using hw
      by_cases hp2 : inp.ping_status = 0
      · rcases hx : (exec_steps inp.step_status
            (progress_increment inp.install_driver inp.install_cuda)
            (claim_steps inp) 0 0).2 with _ | fs
        · have hnc : ([Action.cmd wsl_check_cmd] ++ compat_warnings inp ++
              [Action.cmd ping_cmd] ++
              (exec_steps inp.step_status
                (progress_increment inp.install_driver inp.install_cuda)
                (claim_steps inp) 0 0).1).all no_control = true := by
            simp [List.all_append, compat_warnings_no_control inp,
              exec_steps_no_control, no_control]
          have htr : (installation_thread_model inp).trace =
              [Action.cmd wsl_check_cmd] ++ compat_warnings inp ++
              [Action.cmd ping_cmd] ++
              (exec_steps inp.step_status
                (progress_increment inp.install_driver inp.install_cuda)
                (claim_steps inp) 0 0).1 ++
              [Action.post 100 (some "Installation completed successfully!")
                 "Installation completed successfully!" StatusType.success,
               Action.cmd rm_keyring_cmd,
               Action.setRunning false,
               Action.terminal TermEvent.enableInstallButton,
               Action.terminal TermEvent.enableDetectButton,
               Action.terminal TermEvent.resetInstallLabel,
               Action.terminal TermEvent.completionDialog] := by
            rw [inst_success_char inp hw2 hp2 hx]
          rw [htr]
          constructor
          · rw [flag_cleared_append_no_control _ hnc]
            rfl
          · simp only [last_set_running]
            rw [set_running_append, set_running_no_control hnc, List.nil_append]
            rfl
        · have hnc : ([Action.cmd wsl_check_cmd] ++ compat_warnings inp ++
              [Action.cmd ping_cmd] ++
              (exec_steps inp.step_status
                (progress_increment inp.install_driver inp.install_cuda)
                (claim_steps inp) 0 0).1).all no_control = true := by
            simp [List.all_append, compat_warnings_no_control inp,
              exec_steps_no_control, no_control]
          have htr : (installation_thread_model inp).trace =
              [Action.cmd wsl_check_cmd] ++ compat_warnings inp ++
              [Action.cmd ping_cmd] ++
              (exec_steps inp.step_status
                (progress_increment inp.install_driver inp.install_cuda)
                (claim_steps inp) 0 0).1 ++
              [Action.cmd autoremove_cmd,
               Action.setRunning false,
               Action.terminal TermEvent.enableInstallButton,
               Action.terminal TermEvent.enableDetectButton,
               Action.terminal TermEvent.resetInstallLabel,
               Action.terminal TermEvent.errorDialog] := by
            rw [inst_fail_char inp hw2 hp2 hx]
          rw [htr]
          constructor
          · rw [flag_cleared_append_no_control _ hnc]
            rfl
          · simp only [last_set_running]
            rw [set_running_append, set_running_no_control hnc, List.nil_append]
            rfl
      · have hnc2 : ([Action.cmd wsl_check_cmd] ++ compat_warnings inp).all no_control =
            true := by
          simp [List.all_append, compat_warnings_no_control inp, no_control]
        have htr : (installation_thread_model inp).trace =
            [Action.cmd wsl_check_cmd] ++ compat_warnings inp ++
            [Action.cmd ping_cmd,
             Action.logDirect StatusType.error
               "No internet connection detected. Installation requires internet access.",
             Action.setRunning false,
             Action.terminal TermEvent.enableInstallButton,
             Action.terminal TermEvent.enableDetectButton,
             Action.terminal TermEvent.resetInstallLabel,
             Action.terminal TermEvent.errorDialog] := by
          rw [inst_noping_char inp hw2 hp2]
        rw [htr]
        constructor
        · rw [flag_cleared_append_no_control _ hnc2]
          rfl
        · simp only [last_set_running]
          rw [set_running_append, set_running_no_control hnc2, List.nil_append]
          rfl
  refine ⟨hmain.1, hmain.2, ?_, ?_⟩
  · intro s hs2
    simp [on_detect_clicked_model, hs2]
  · by_cases h1 : is_wsl_system env.wsl <;> by_cases h2 : env.gpu_detected <;>
      by_cases h3 : (env.install_driver || env.install_cuda) = true <;>
      by_cases h4 : env.confirmed <;> rcases hpw : env.password with _ | pw <;>
      simp [on_install_clicked_handler, h1, h2, h3, h4, hpw]

/-- Witness for C9: the concrete all-success run clears the flag before its
terminal posts, and a detect click with the flag clear spawns a probe. -/
theorem C9_flag_reset_witness :
    flag_cleared_first false (installation_thread_model all_ok_input).trace = true ∧
    on_detect_clicked_model
      { installation_running := false, detect_sensitive := true,
        install_sensitive := true, active_probes := 0, active_installs := 0 } =
      { installation_running := false, detect_sensitive := false,
        install_sensitive := true, active_probes := 1, active_installs := 0 } :=
  ⟨(C9_flag_reset all_ok_input all_ok_click).1,
   (C9_flag_reset all_ok_input all_ok_click).2.2.1 _ rfl⟩

/-- Claim C10: the two cleanup actions are mutually exclusive by outcome —
a successful run executes the keyring-file removal and never `autoremove`,
and a failed run executes `autoremove` and never the keyring removal. -/
theorem C10_cleanup_exclusive (inp : InstallInput)
    (hw : is_wsl_system inp.wsl = false)
    (hp : inp.ping_status = 0) :
    ((installation_thread_model inp).outcome = RunOutcome.succeeded →
      rm_keyring_cmd ∈ executed_cmds (installation_thread_model inp).trace ∧
      autoremove_cmd ∉ executed_cmds (installation_thread_model inp).trace) ∧
    (∀ desc code,
      (installation_thread_model inp).outcome = RunOutcome.failed desc code →
      autoremove_cmd ∈ executed_cmds (installation_thread_model inp).trace ∧
      rm_keyring_cmd ∉ executed_cmds (installation_thread_model inp).trace) := by
  rcases hx : (exec_steps inp.step_status
      (progress_increment inp.install_driver inp.install_cuda)
      (claim_steps inp) 0 0).2 with _ | fs
  · have hout : (installation_thread_model inp).outcome = RunOutcome.succeeded := by
      rw [inst_success_char inp hw hp hx]
    have hex := executed_cmds_success_char inp hw hp hx
    constructor
    · intro _
      rw [hex]
      constructor
      · simp
      · intro hmem
        rcases List.mem_append.mp hmem with h | h
        · rcases List.mem_append.mp h with h2 | h2
          · exact absurd h2 (by decide)
          · exact absurd h2
              ((cleanup_cmds_not_steps inp.install_driver inp.install_cuda
                inp.distro_codename).2)
        · exact absurd h (by decide)
    · intro desc code hcontra
      rw [hout] at hcontra
      exact RunOutcome.noConfusion hcontra
  · have hout : (installation_thread_model inp).outcome =
        RunOutcome.failed fs.1.message fs.2 := by
      rw [inst_fail_char inp hw hp hx]
    have hex := executed_cmds_fail_char inp hw hp hx
    constructor
    · intro hcontra
      rw [hout] at hcontra
      exact RunOutcome.noConfusion hcontra
    · intro desc code _
      rw [hex]
      constructor
      · simp
      · intro hmem
        rcases List.mem_append.mp hmem with h | h
        · rcases List.mem_append.mp h with h2 | h2
          · exact absurd h2 (by decide)
          · exact absurd (exec_steps_cmds_subset _ _ _ _ _ h2)
              ((cleanup_cmds_not_steps inp.install_driver inp.install_cuda
                inp.distro_codename).1)
        · exact absurd h (by decide)

/-- Witness for C10: the concrete all-success run removes the keyring and
never runs `autoremove`. -/
theorem C10_cleanup_exclusive_witness :
    rm_keyring_cmd ∈ executed_cmds (installation_thread_model all_ok_input).trace ∧
    autoremove_cmd ∉ executed_cmds (installation_thread_model all_ok_input).trace := by
  have h := C10_cleanup_exclusive all_ok_input (by decide) rfl
  exact h.1 (by decide)

end NvidiaSetup
